import Mathlib

/-!
Shallow embedding of the MBTI message-scoring core (`api/analyze.js`) of the
mbti-line-bot repository, together with its request-validation glue, and
proofs of the specification claims about them.

Modelling conventions:
* JS strings are Lean `String`s (lists of Unicode scalar values); the
  dictionary matching operates on `List Char`.
* JS numbers are exact rationals.  The single transcendental operation of the
  source, `Math.pow(x, 1.3)`, is kept as an explicit function parameter
  `f : ℚ → ℚ` of the score pipeline, so every theorem quantifies over it
  (adding, where a proof needs them, exactly the properties the real power
  function has: value `0` at `0`, monotone and nonnegative on nonnegatives).
* `refPow` is a concrete representative used in closed instance theorems; all
  such theorems evaluate the power function only at argument `0`, where its
  value `0` agrees with `Math.pow(0, 1.3)`.
-/

namespace MbtiBot

/- The kernel computes with the rational arithmetic of the embedding; these
operations are `@[irreducible]` upstream only to keep `simp`-style automation
from unfolding them, which would block the concrete evaluations below. -/
attribute [local semireducible] Rat.add Rat.mul Rat.sub Rat.inv Rat.ofScientific

/-! ## JS string primitives on character lists -/

/-- JS `String.prototype.includes`: `needle` occurs as a contiguous substring
of `hay`. -/
def containsSub (hay needle : List Char) : Bool :=
  match hay with
  | [] => needle.isEmpty
  | _ :: rest => needle.isPrefixOf hay || containsSub rest needle

/-- JS `String.prototype.indexOf`: index (in characters) of the first
occurrence of `needle` in `hay`, `none` when absent. -/
def idxOf (hay needle : List Char) : Option Nat :=
  match hay with
  | [] => if needle.isEmpty then some 0 else none
  | _ :: rest =>
    if needle.isPrefixOf hay then some 0
    else (idxOf rest needle).map (· + 1)

/-- Does the character list start with characters satisfying the given
classes, in order?  (Used for character-class regex fragments.) -/
def matchClasses : List (Char → Bool) → List Char → Bool
  | [], _ => true
  | _ :: _, [] => false
  | p :: ps, c :: rest => p c && matchClasses ps rest

/-- Is there a position of `l` at which consecutive characters satisfy the
classes in order?  (JS `regex.test` for a sequence of character classes.) -/
def hasSeq (classes : List (Char → Bool)) : List Char → Bool
  | [] => matchClasses classes []
  | c :: rest => matchClasses classes (c :: rest) || hasSeq classes rest

/-- Number of matches of a JS global regex that is a plain alternation of
literal words: scanning left to right, at each position the first alternative
(in alternation order) that matches is consumed whole.  The `fuel` argument
makes the recursion structural; each step consumes at least one character, so
`fuel = s.length` (as used below) never runs out. -/
def countMatchesAux (alts : List (List Char)) : Nat → List Char → Nat
  | _, [] => 0
  | 0, _ => 0
  | fuel + 1, c :: rest =>
    match alts.find? (fun a => a.isPrefixOf (c :: rest)) with
    | some a => 1 + countMatchesAux alts fuel (rest.drop (a.length - 1))
    | none => countMatchesAux alts fuel rest

def countMatches (alts : List (List Char)) (s : List Char) : Nat :=
  countMatchesAux alts s.length s

/-! ## Normalizer (`normalizeText`) -/

/-- Code points matched by JS regex `\s` (which already contains `　`). -/
def wsVals : List Nat :=
  [0x09, 0x0A, 0x0B, 0x0C, 0x0D, 0x20, 0xA0, 0x1680,
   0x2000, 0x2001, 0x2002, 0x2003, 0x2004, 0x2005, 0x2006, 0x2007,
   0x2008, 0x2009, 0x200A, 0x2028, 0x2029, 0x202F, 0x205F, 0x3000, 0xFEFF]

def wsChar (c : Char) : Bool := decide (c.toNat ∈ wsVals)

/-- Full-width Latin letters and digits (`Ａ-Ｚａ-ｚ０-９`). -/
def inWide (c : Char) : Bool :=
  decide ((0xFF21 ≤ c.toNat ∧ c.toNat ≤ 0xFF3A) ∨
          (0xFF41 ≤ c.toNat ∧ c.toNat ≤ 0xFF5A) ∨
          (0xFF10 ≤ c.toNat ∧ c.toNat ≤ 0xFF19))

/-- `String.fromCharCode(ch.charCodeAt(0) - 0xFEE0)` on the matched range. -/
def foldWide (c : Char) : Char :=
  if inWide c then Char.ofNat (c.toNat - 0xFEE0) else c

def hankakuMap : List Char :=
  "ｦｧｨｩｪｫｬｭｮｯｰｱｲｳｴｵｶｷｸｹｺｻｼｽｾｿﾀﾁﾂﾃﾄﾅﾆﾇﾈﾉﾊﾋﾌﾍﾎﾏﾐﾑﾒﾓﾔﾕﾖﾗﾘﾙﾚﾛﾜﾝﾞﾟ".data

def zenkakuMap : List Char :=
  "ヲァィゥェォャュョッーアイウエオカキクケコサシスセソタチツテトナニヌネノハヒフヘホマミムメモヤユヨラリルレロワン゛゜".data

/-- Half-width katakana block `ｦ-ﾟ` matched by the source regex. -/
def inHank (c : Char) : Bool :=
  decide (0xFF66 ≤ c.toNat ∧ c.toNat ≤ 0xFF9F)

/-- The replacement callback: `idx = hankakuMap.indexOf(ch);
idx >= 0 ? zenkakuMap[idx] : ch`. -/
def foldHankaku (c : Char) : Char :=
  if inHank c then
    match hankakuMap.findIdx? (· == c) with
    | some i => zenkakuMap.getD i c
    | none => c
  else c

/-- JS `String.prototype.toLowerCase`, modelled on the character ranges the
analyzer's dictionaries and pipeline can produce at this stage (ASCII and
full-width Latin capitals); other bicameral scripts never occur in the
dictionaries and are left unchanged. -/
def jsToLower (c : Char) : Char :=
  if decide (0x41 ≤ c.toNat ∧ c.toNat ≤ 0x5A) then Char.ofNat (c.toNat + 0x20)
  else if decide (0xFF21 ≤ c.toNat ∧ c.toNat ≤ 0xFF3A) then Char.ofNat (c.toNat + 0x20)
  else c

def normChar (c : Char) : Char := jsToLower (foldHankaku (foldWide c))

/-- `normalizeText` of the source: strip all whitespace, fold full-width
alphanumerics, fold half-width katakana, lower-case.  Each source step is a
per-character regex replacement, so the composite is a filter followed by
character maps. -/
def normalizeList (l : List Char) : List Char :=
  (l.filter (fun c => !wsChar c)).map normChar

def normalizeText (s : String) : String := ⟨normalizeList s.data⟩

/-! ## Dictionary tables -/

structure PsyCategory where
  label : String
  baseSeverity : ℚ
  desc : String
deriving Repr, DecidableEq

/-- `PSY_CATEGORIES`. -/
def PSY_CATEGORIES : List (String × PsyCategory) :=
  [("direct_insult", ⟨"直接侮辱", 10, "人格を直接攻撃する侮辱表現"⟩),
   ("ideal_denial", ⟨"理想・価値観の否定", 5, "相手の信念や理想を真っ向から否定する"⟩),
   ("command", ⟨"命令・支配", 4, "選択の自由を奪い、服従を強いる"⟩),
   ("command_soft", ⟨"柔らかい命令・圧力", 3, "励ましや指示の形をとりつつ暗に行動を強制する"⟩),
   ("comparison", ⟨"比較・レッテル", 4, "他者と比較して劣等感を植えつける"⟩),
   ("emotional_dismiss", ⟨"感情の軽視", 5, "感情を無意味・過剰と切り捨てる"⟩),
   ("identity_attack", ⟨"人格攻撃", 5, "性格や本質を否定する"⟩),
   ("conformity", ⟨"同調圧力", 4, "多数派に合わせることを強要する"⟩),
   ("capability_deny", ⟨"能力の否定", 4, "相手の力量や可能性を否定する"⟩),
   ("freedom_restrict", ⟨"自由の制限", 3, "行動や思考の自由を制限する"⟩),
   ("goodwill_reject", ⟨"善意の拒絶", 5, "善意からの行動を迷惑と退ける"⟩),
   ("privacy_invade", ⟨"境界侵害", 3, "心理的な境界を無視して踏み込む"⟩),
   ("past_blame", ⟨"過去の蒸し返し", 3, "過去の失敗を持ち出して攻撃する"⟩),
   ("vague_criticism", ⟨"曖昧な批判", 3, "具体性のない否定で逃げ場を奪う"⟩),
   ("generalization", ⟨"過度な一般化", 2, "「いつも」「絶対」で事実を歪める"⟩),
   ("interrogation_pressure", ⟨"詰問・追及", 5, "答えを追い詰め、繰り返しで無力感を与える"⟩),
   ("passive_aggressive", ⟨"受動攻撃", 4, "間接的に相手の価値を否定する冷淡な表現"⟩)]

/-- `PSY_CATEGORIES[catId]?.baseSeverity || 3` (no severity in the table is
zero, so JS falsiness coincides with absence). -/
def psyBase (catId : String) : ℚ :=
  ((List.lookup catId PSY_CATEGORIES).map PsyCategory.baseSeverity).getD 3

structure InsultGroup where
  patterns : List String
  reason : String
  ultraSevere : Bool
deriving Repr, DecidableEq

/-- `DIRECT_INSULTS` (the `ultraSevere` flag is absent, hence false, except on
the fourth group). -/
def DIRECT_INSULTS : List InsultGroup :=
  [⟨["ばか", "バカ", "馬鹿"], "直接的な侮辱は相手の尊厳を根本から傷つけます", false⟩,
   ⟨["アホ", "あほ", "阿呆"], "知性を否定する侮辱表現です", false⟩,
   ⟨["無能", "能無し", "役立たず"], "存在価値そのものを否定する極めて攻撃的な表現です", false⟩,
   ⟨["死ね", "しね", "タヒね", "死んで", "死ねば"], "生存を否定する最も危険な言葉です", true⟩,
   ⟨["クズ", "くず", "カス", "ゴミ"], "人間としての価値を完全に否定する侮辱です", false⟩,
   ⟨["きもい", "キモい", "キモイ", "気持ち悪い"], "生理的嫌悪を示す深い侮辱表現です", false⟩,
   ⟨["うざい", "ウザい", "ウザイ"], "存在そのものを否定する攻撃的な表現です", false⟩,
   ⟨["お前", "てめえ", "てめぇ", "おまえ"], "人格を軽視する呼称は攻撃性を増幅させます", false⟩]

/-- `QUOTE_PATTERNS`. -/
def QUOTE_PATTERNS : List String :=
  ["って言われた", "と言われた", "言われたら", "って言うな", "って言われて", "と言われて"]

/-- `isQuotedInsult`: some quote pattern occurs in `text.slice(matchIndex)`. -/
def isQuotedInsult (t : List Char) (matchIndex : Nat) : Bool :=
  QUOTE_PATTERNS.any (fun qp => containsSub (t.drop matchIndex) qp.data)

structure PatternEntry where
  patterns : List String
  reason : String
deriving Repr, DecidableEq

/-- `CATEGORY_PATTERNS`, in source (insertion) order. -/
def CATEGORY_PATTERNS : List (String × List PatternEntry) :=
  [("ideal_denial",
    [⟨["現実を見", "現実見", "現実的に", "地に足つけ", "目を覚ませ"], "理想を持つこと自体を否定し、価値観の根幹を攻撃する表現です"⟩,
     ⟨["理想論", "きれいごと", "絵空事", "夢ばかり", "夢物語", "机上の空論"], "価値観や夢の全否定につながる危険な表現です"⟩,
     ⟨["甘い", "甘えてる", "甘すぎ", "世間知らず"], "優しさや理想主義を弱さとして否定する表現です"⟩,
     ⟨["ダメ", "ダメだ", "ダメでしょ"], "全否定的な表現は相手の自尊心を傷つけます"⟩,
     ⟨["意味ある", "役に立つの", "何の得が", "無駄じゃない"], "知的好奇心や取り組みの否定。実用性だけで価値を測る表現です"⟩,
     ⟨["ルール通りじゃなくても", "ルールなんて", "規則は破る"], "秩序や信念を軽視する表現です"⟩,
     ⟨["自分のこと先に", "人の心配より", "自分を優先しろ"], "他者貢献の姿勢を批判する表現です"⟩,
     ⟨["夢見すぎ", "妄想", "現実離れ"], "ビジョンや理想の原動力を否定する表現です"⟩,
     ⟨["将来のこと考えてる", "先のこと", "将来どうする", "老後"], "今を大切に生きる姿勢への批判です"⟩,
     ⟨["食べていける", "稼げるの", "お金になる", "生活できる"], "情熱や価値観を経済性だけで否定する表現です"⟩,
     ⟨["現実的じゃない"], "可能性の探究を封じる表現です"⟩]),
   ("command",
    [⟨["感情出して", "気持ちを言って", "もっと笑って"], "感情表現の強制は大きなストレスを生みます"⟩,
     ⟨["早く決めて", "さっさと決め", "いつまで迷って"], "熟考を軽視し、即断を強いる表現です"⟩,
     ⟨["落ち着き", "落ち着け", "落ち着いて", "静かにして"], "エネルギーや活力を抑圧する表現です"⟩,
     ⟨["断ればいい", "NOと言え", "嫌なら断れ"], "優しさゆえに断れない苦しみを理解しない発言です"⟩,
     ⟨["はっきり言って", "はっきりして", "どっちなの"], "控えめさを否定し、即答を強制する表現です"⟩,
     ⟨["落ち着い", "冷静に", "もっとゆっくり"], "即断即決のスタイルを否定する表現です"⟩,
     ⟨["真面目にやって", "真剣にやれ", "遊びじゃない", "ふざけてないで"], "自由な表現を抑制する命令です"⟩]),
   ("command_soft",
    [⟨["頑張れよ", "頑張れば", "頑張りなよ", "もっと頑張"], "励ましの形をとりつつ、現状の努力を否定し行動を強制するニュアンスがあります"⟩,
     ⟨["ちゃんとやれ", "ちゃんとしろ", "ちゃんとして"], "「ちゃんと」は曖昧な基準で行動を強制する圧力表現です"⟩,
     ⟨["しろよ", "やれよ", "しなよ", "やりなよ"], "柔らかい口調でも行動の強制は相手の自律性を脅かします"⟩]),
   ("comparison",
    [⟨["リーダーぶる", "仕切りたがり", "目立ちたがり"], "自然なリーダーシップを自己顕示欲と決めつける攻撃です"⟩,
     ⟨["優しく言えない", "言い方きつい", "キツイ", "怖い"], "コミュニケーションスタイルへの一方的な批判です"⟩,
     ⟨["人の目気にし", "周り気にし", "人目を", "顔色うかがい"], "周囲への配慮を批判する表現です"⟩]),
   ("emotional_dismiss",
    [⟨["気にしすぎ", "気にするな", "気にしないで", "気にしなくていい"], "繊細さを弱さとして否定する表現です"⟩,
     ⟨["考えすぎ", "考え過ぎ", "深読みしすぎ"], "洞察力を過剰反応と片付ける表現です"⟩,
     ⟨["泣いても", "泣くな", "泣いたって", "めそめそ"], "感情表現を無意味と切り捨てる表現です"⟩,
     ⟨["結論は", "結局何", "要するに", "で、何が言いたい"], "思考プロセスを軽視する表現です"⟩,
     ⟨["でもさ、", "でも、", "だけど、", "だけどさ、", "しかし、"], "逆接の多用は相手の意見を否定する印象を与えます"⟩,
     ⟨["大げさ", "大げさすぎ", "オーバー", "オーバーすぎ"], "感情の表出を過剰と切り捨てる表現です"⟩,
     ⟨["それくらいで", "そのくらいで", "たかが", "たかだか"], "感情の大きさを軽視し、感じること自体を否定します"⟩,
     ⟨["落ち込むな", "凹むな", "へこむな", "くよくよするな"], "ネガティブな感情を感じること自体を否定する表現です"⟩]),
   ("identity_attack",
    [⟨["理屈っぽい", "理屈ばかり", "理屈じゃない"], "論理的思考力を欠点扱いする表現です"⟩,
     ⟨["冷たい", "冷たすぎ", "薄情", "ドライ"], "冷静さを冷淡と決めつける表現です"⟩,
     ⟨["繊細すぎ", "敏感すぎ", "打たれ弱い", "メンタル弱い"], "感受性そのものを否定する人格攻撃です"⟩,
     ⟨["仕切らないで", "仕切りすぎ", "出しゃばり", "でしゃばる"], "自然なリーダーシップを否定する表現です"⟩,
     ⟨["謙虚に", "偉そう", "上から目線", "傲慢", "何様", "威張る"], "自信を傲慢と決めつける人格否定です"⟩,
     ⟨["屁理屈", "理屈ばっかり", "ごちゃごちゃ言う", "ああ言えばこう言う"], "議論や思考を楽しむ姿勢を全否定する表現です"⟩,
     ⟨["偽善", "いい人ぶって", "ぶりっ子", "白々しい"], "誠意を疑い、人格を否定する表現です"⟩,
     ⟨["テンション高", "うるさい", "騒がしい", "はしゃぎすぎ"], "感情の自由な表現を抑制する表現です"⟩,
     ⟨["融通きかない", "融通がきかない", "頭が固い", "石頭"], "一貫性と信頼性を欠点扱いする表現です"⟩,
     ⟨["堅すぎ", "真面目すぎ", "堅物", "カタブツ"], "誠実さを欠点として否定する表現です"⟩,
     ⟨["自分の意見ないの", "意見がない", "主体性がない", "言いなり"], "協調性を弱さとして批判する表現です"⟩,
     ⟨["都合よく使われ", "利用されてる", "いいように使われ"], "献身を利用と指摘する攻撃的な表現です"⟩,
     ⟨["押し付け", "強制するな", "押しつけがましい"], "指導や助けを強制と決めつける表現です"⟩,
     ⟨["八方美人", "いい顔しすぎ", "誰にでもいい顔"], "調和の努力を偽りと否定する表現です"⟩,
     ⟨["嫌われたくない", "好かれたい", "人気取り", "媚び"], "動機を疑う攻撃的な表現です"⟩,
     ⟨["自分がない", "個性がない", "没個性", "流される"], "協調性を個性の欠如と否定する表現です"⟩,
     ⟨["優柔不断", "決められない", "迷いすぎ", "煮え切らない"], "慎重さを弱点として批判する表現です"⟩,
     ⟨["雑すぎ", "雑だね", "いい加減", "適当すぎ"], "スピード感や自由さを雑と批判する表現です"⟩,
     ⟨["空気読めてない", "KY", "場違い", "浮いてる"], "社交性や自然体を否定する表現です"⟩,
     ⟨["チャラい", "軽い", "軽薄", "薄っぺらい"], "表面的と決めつける人格否定です"⟩,
     ⟨["深みがない", "中身がない", "浅い"], "人格の全否定につながる危険な表現です"⟩]),
   ("conformity",
    [⟨["周りに合わせ", "合わせたら", "合わせろ", "合わせなよ"], "独自の視点を否定し、多数派への同調を強要する表現です"⟩,
     ⟨["みんなそうしてる", "普通はこう", "常識的に", "一般的には"], "多数派論法で独自性を全否定する表現です"⟩,
     ⟨["空気読", "場の雰囲気", "空気を"], "暗黙のルールを強制する同調圧力です"⟩,
     ⟨["協調性ない", "チームワーク", "みんなと一緒に", "一人で勝手に"], "独立性を欠点として批判する表現です"⟩,
     ⟨["普通は", "普通さ", "当然でしょ", "当然だろ"], "「普通」「当然」は自分の基準を相手に押し付ける断定語です"⟩]),
   ("capability_deny",
    [⟨["任せるのは不安", "任せられない", "心配だから"], "能力への不信感を示す表現です"⟩,
     ⟨["無理だと思う", "できないよ", "不可能", "どうせ無理"], "可能性を否定する表現です"⟩,
     ⟨["やり方が全てじゃない", "他にもやり方", "古い"], "経験に基づく判断を否定する表現です"⟩]),
   ("freedom_restrict",
    [⟨["計画的に", "計画を立てて", "行き当たりばったり", "無計画"], "柔軟性を否定し、自由さを制限する表現です"⟩,
     ⟨["柔軟に", "もっと柔軟", "臨機応変に", "適当でいい"], "計画性を否定し、混乱を強要する表現です"⟩,
     ⟨["報連相", "報告して", "連絡して", "逐一報告"], "自由な行動を制限する管理的な表現です"⟩,
     ⟨["後先考え", "先のこと考えて", "リスク考えろ"], "行動力を軽率と決めつける表現です"⟩,
     ⟨["ふざけ", "ふざけるな", "ふざけすぎ", "悪ふざけ"], "楽しさを生み出す力の否定です"⟩]),
   ("goodwill_reject",
    [⟨["お節介", "おせっかい", "余計なお世話", "頼んでない"], "善意からの行動を否定する表現です"⟩,
     ⟨["気を遣わなくて", "気遣い不要", "余計な心配"], "気遣いを否定され、存在意義を疑わせます"⟩]),
   ("privacy_invade",
    [⟨["本音を言", "本心は", "隠さないで", "正直に言って"], "心を無理にこじ開けようとする表現です"⟩]),
   ("past_blame",
    [⟨["飽きっぽい", "三日坊主", "続かない", "すぐ投げ出す"], "多方面への興味を欠点扱いする批判です"⟩,
     ⟨["途中でやめる", "どうせまた", "また飽きる"], "過去の失敗を蒸し返し、成長を認めない表現です"⟩,
     ⟨["反省してる", "反省しろ", "反省しな", "懲りない"], "過去の失敗を蒸し返す攻撃的な表現です"⟩]),
   ("vague_criticism",
    [⟨["ちゃんとして", "しっかりして", "だらしない", "しっかりしな", "ちゃんとしな", "もっとしっかり"], "曖昧な基準の押しつけ。具体性のない批判です"⟩,
     ⟨["曖昧"], "控えめさを否定する表現です"⟩]),
   ("generalization",
    [⟨["いつも", "毎回", "いっつも"], "「いつも」は過度な一般化。実際には毎回ではないため反発を招きます"⟩,
     ⟨["絶対", "絶対に", "必ず"], "断定的な表現は相手の選択肢を奪うニュアンスがあります"⟩]),
   ("interrogation_pressure",
    [⟨["なんで？", "なんでできない", "なぜできない", "ナンデ", "どうしてできない"], "能力を疑う詰問は相手の自信を破壊します"⟩,
     ⟨["何回言わせる", "何度言えば", "何回言ったら"], "繰り返しの詰問は相手を追い詰め無力感を与えます"⟩,
     ⟨["どうして毎回", "いつになったら"], "過去の蒸し返しと詰問の複合で強い圧迫感を与えます"⟩]),
   ("passive_aggressive",
    [⟨["期待してない", "期待しない", "期待できない"], "暗に相手の能力・価値を否定する受動攻撃的な表現です"⟩,
     ⟨["まあいいんじゃない", "別にいいけど", "好きにすれば", "どうでもいい"], "関心の放棄を装った拒絶のメッセージです"⟩,
     ⟨["別にいいよ", "ご自由に", "勝手にすれば"], "投げやりな態度で相手を突き放す表現です"⟩])]

/-- `MBTI_MULTIPLIERS` (association lists, in source order). -/
def MBTI_MULTIPLIERS : List (String × List (String × ℚ)) :=
  [("INTJ",
    [("ideal_denial", 1.2), ("command", 1.0), ("command_soft", 0.8), ("comparison", 1.0), ("emotional_dismiss", 0.6), ("identity_attack", 1.2), ("conformity", 2.0), ("capability_deny", 1.5), ("freedom_restrict", 1.5), ("goodwill_reject", 0.6), ("privacy_invade", 1.0), ("past_blame", 0.8), ("vague_criticism", 1.2), ("generalization", 1.0), ("interrogation_pressure", 0.8), ("passive_aggressive", 0.8)]),
   ("INTP",
    [("ideal_denial", 1.5), ("command", 1.2), ("command_soft", 1.0), ("comparison", 0.8), ("emotional_dismiss", 0.5), ("identity_attack", 1.0), ("conformity", 2.0), ("capability_deny", 1.2), ("freedom_restrict", 1.5), ("goodwill_reject", 0.5), ("privacy_invade", 1.2), ("past_blame", 0.8), ("vague_criticism", 1.8), ("generalization", 1.5), ("interrogation_pressure", 0.8), ("passive_aggressive", 0.8)]),
   ("ENTJ",
    [("ideal_denial", 1.0), ("command", 0.8), ("command_soft", 0.5), ("comparison", 1.2), ("emotional_dismiss", 0.5), ("identity_attack", 1.2), ("conformity", 1.0), ("capability_deny", 2.0), ("freedom_restrict", 1.2), ("goodwill_reject", 0.6), ("privacy_invade", 0.8), ("past_blame", 1.0), ("vague_criticism", 1.0), ("generalization", 0.8), ("interrogation_pressure", 0.6), ("passive_aggressive", 0.6)]),
   ("ENTP",
    [("ideal_denial", 1.2), ("command", 1.5), ("command_soft", 0.8), ("comparison", 0.8), ("emotional_dismiss", 0.5), ("identity_attack", 1.0), ("conformity", 2.0), ("capability_deny", 1.0), ("freedom_restrict", 1.8), ("goodwill_reject", 0.5), ("privacy_invade", 0.8), ("past_blame", 0.8), ("vague_criticism", 1.5), ("generalization", 1.2), ("interrogation_pressure", 0.6), ("passive_aggressive", 0.8)]),
   ("INFJ",
    [("ideal_denial", 1.5), ("command", 1.2), ("command_soft", 1.2), ("comparison", 1.2), ("emotional_dismiss", 2.0), ("identity_attack", 1.8), ("conformity", 1.0), ("capability_deny", 1.0), ("freedom_restrict", 1.0), ("goodwill_reject", 1.2), ("privacy_invade", 1.8), ("past_blame", 1.2), ("vague_criticism", 1.0), ("generalization", 1.2), ("interrogation_pressure", 1.5), ("passive_aggressive", 1.5)]),
   ("INFP",
    [("ideal_denial", 2.0), ("command", 1.5), ("command_soft", 1.5), ("comparison", 1.5), ("emotional_dismiss", 2.0), ("identity_attack", 1.8), ("conformity", 1.2), ("capability_deny", 1.0), ("freedom_restrict", 1.2), ("goodwill_reject", 1.0), ("privacy_invade", 1.2), ("past_blame", 1.5), ("vague_criticism", 1.2), ("generalization", 1.0), ("interrogation_pressure", 1.5), ("passive_aggressive", 1.8)]),
   ("ENFJ",
    [("ideal_denial", 1.2), ("command", 1.0), ("command_soft", 1.0), ("comparison", 1.2), ("emotional_dismiss", 1.5), ("identity_attack", 1.5), ("conformity", 0.8), ("capability_deny", 1.0), ("freedom_restrict", 0.8), ("goodwill_reject", 2.0), ("privacy_invade", 1.0), ("past_blame", 1.0), ("vague_criticism", 1.0), ("generalization", 1.0), ("interrogation_pressure", 1.2), ("passive_aggressive", 1.2)]),
   ("ENFP",
    [("ideal_denial", 1.8), ("command", 1.5), ("command_soft", 1.2), ("comparison", 1.2), ("emotional_dismiss", 1.5), ("identity_attack", 1.2), ("conformity", 1.5), ("capability_deny", 1.0), ("freedom_restrict", 1.8), ("goodwill_reject", 0.8), ("privacy_invade", 0.8), ("past_blame", 1.5), ("vague_criticism", 1.0), ("generalization", 1.0), ("interrogation_pressure", 1.0), ("passive_aggressive", 1.2)]),
   ("ISTJ",
    [("ideal_denial", 1.5), ("command", 0.6), ("command_soft", 0.5), ("comparison", 1.0), ("emotional_dismiss", 0.5), ("identity_attack", 1.2), ("conformity", 0.6), ("capability_deny", 1.5), ("freedom_restrict", 0.8), ("goodwill_reject", 0.8), ("privacy_invade", 1.2), ("past_blame", 1.0), ("vague_criticism", 1.5), ("generalization", 1.2), ("interrogation_pressure", 0.8), ("passive_aggressive", 0.6)]),
   ("ISFJ",
    [("ideal_denial", 1.2), ("command", 1.2), ("command_soft", 1.2), ("comparison", 1.5), ("emotional_dismiss", 1.5), ("identity_attack", 1.8), ("conformity", 0.8), ("capability_deny", 1.0), ("freedom_restrict", 0.8), ("goodwill_reject", 2.0), ("privacy_invade", 1.5), ("past_blame", 1.2), ("vague_criticism", 1.2), ("generalization", 1.0), ("interrogation_pressure", 1.5), ("passive_aggressive", 1.5)]),
   ("ESTJ",
    [("ideal_denial", 1.0), ("command", 0.5), ("command_soft", 0.5), ("comparison", 1.2), ("emotional_dismiss", 0.5), ("identity_attack", 1.5), ("conformity", 0.5), ("capability_deny", 1.8), ("freedom_restrict", 0.6), ("goodwill_reject", 0.8), ("privacy_invade", 0.8), ("past_blame", 1.0), ("vague_criticism", 1.2), ("generalization", 0.8), ("interrogation_pressure", 0.5), ("passive_aggressive", 0.5)]),
   ("ESFJ",
    [("ideal_denial", 1.0), ("command", 1.0), ("command_soft", 1.0), ("comparison", 1.5), ("emotional_dismiss", 1.5), ("identity_attack", 2.0), ("conformity", 0.6), ("capability_deny", 1.0), ("freedom_restrict", 0.8), ("goodwill_reject", 1.8), ("privacy_invade", 1.2), ("past_blame", 1.2), ("vague_criticism", 1.0), ("generalization", 1.0), ("interrogation_pressure", 1.2), ("passive_aggressive", 1.2)]),
   ("ISTP",
    [("ideal_denial", 0.8), ("command", 1.5), ("command_soft", 1.0), ("comparison", 0.8), ("emotional_dismiss", 0.5), ("identity_attack", 1.0), ("conformity", 1.5), ("capability_deny", 1.2), ("freedom_restrict", 2.0), ("goodwill_reject", 0.5), ("privacy_invade", 1.5), ("past_blame", 0.8), ("vague_criticism", 1.2), ("generalization", 1.0), ("interrogation_pressure", 0.8), ("passive_aggressive", 0.6)]),
   ("ISFP",
    [("ideal_denial", 1.5), ("command", 1.5), ("command_soft", 1.2), ("comparison", 1.5), ("emotional_dismiss", 1.8), ("identity_attack", 1.5), ("conformity", 1.2), ("capability_deny", 1.0), ("freedom_restrict", 1.5), ("goodwill_reject", 0.8), ("privacy_invade", 1.5), ("past_blame", 1.2), ("vague_criticism", 1.5), ("generalization", 1.0), ("interrogation_pressure", 1.5), ("passive_aggressive", 1.5)]),
   ("ESTP",
    [("ideal_denial", 0.8), ("command", 1.2), ("command_soft", 0.6), ("comparison", 1.0), ("emotional_dismiss", 0.5), ("identity_attack", 1.2), ("conformity", 1.2), ("capability_deny", 1.0), ("freedom_restrict", 1.8), ("goodwill_reject", 0.5), ("privacy_invade", 1.0), ("past_blame", 1.8), ("vague_criticism", 0.8), ("generalization", 1.0), ("interrogation_pressure", 0.6), ("passive_aggressive", 0.5)]),
   ("ESFP",
    [("ideal_denial", 1.0), ("command", 1.2), ("command_soft", 1.0), ("comparison", 1.5), ("emotional_dismiss", 1.5), ("identity_attack", 2.0), ("conformity", 1.0), ("capability_deny", 0.8), ("freedom_restrict", 1.5), ("goodwill_reject", 0.8), ("privacy_invade", 0.8), ("past_blame", 1.2), ("vague_criticism", 1.0), ("generalization", 1.0), ("interrogation_pressure", 1.0), ("passive_aggressive", 1.0)])]

/-! ## Findings and the two detection phases -/

/-- One entry pushed onto `found` (the `_category`/`_damage` fields are the
underscored internals of the source). -/
structure Finding where
  keyword : String
  reason : String
  mbtiTypes : List String
  category : String
  damage : ℚ
deriving Repr, DecidableEq

/-- A `found` entry after `cleanFound` strips the underscored fields. -/
structure NgWord where
  keyword : String
  reason : String
  mbtiTypes : List String
deriving Repr, DecidableEq

/-- `obj[k] = (obj[k] || 0) + v` on an insertion-ordered object. -/
def addDamage (m : List (String × ℚ)) (k : String) (v : ℚ) : List (String × ℚ) :=
  if m.any (fun p => p.1 == k) then
    m.map (fun p => if p.1 == k then (p.1, p.2 + v) else p)
  else m ++ [(k, v)]

/-- The mutable locals of `analyzeLocal` during the two scanning phases. -/
structure ScanState where
  found : List Finding
  cbd : List (String × ℚ)  -- categoryBaseDamage
  cmd : List (String × ℚ)  -- categoryMbtiDamage
  insultCount : Nat
  hasUltraSevere : Bool
deriving Repr, DecidableEq

def initState : ScanState := ⟨[], [], [], 0, false⟩

/-- First pattern of a group that occurs in the normalized text, with the
index of its first occurrence (the inner `for pattern of di.patterns` loop up
to its `idx !== -1` test). -/
def firstIdxMatch (normalized : List Char) : List String → Option (String × Nat)
  | [] => none
  | p :: ps =>
    match idxOf normalized p.data with
    | some i => some (p, i)
    | none => firstIdxMatch normalized ps

/-- Phase 1 body for one `DIRECT_INSULTS` group: quote filter, duplicate
filter, then fixed-severity accounting (no multiplier). -/
def phase1Step (normalized : List Char) (mbti : String) (st : ScanState)
    (g : InsultGroup) : ScanState :=
  match firstIdxMatch normalized g.patterns with
  | none => st
  | some (pat, i) =>
    if isQuotedInsult normalized i then st
    else if st.found.any (fun f => f.keyword == pat) then st
    else
      let base := psyBase "direct_insult"
      { found := st.found ++ [⟨pat, g.reason, [mbti], "direct_insult", base⟩]
        cbd := addDamage st.cbd "direct_insult" base
        cmd := addDamage st.cmd "direct_insult" base
        insultCount := st.insultCount + 1
        hasUltraSevere := st.hasUltraSevere || g.ultraSevere }

/-- Phase 2 body for one pattern entry: first contained phrase wins, duplicate
keywords are dropped, damage is `baseSeverity × multiplier`. -/
def phase2Step (normalized : List Char) (mbti : String) (mult : String → ℚ)
    (catId : String) (st : ScanState) (e : PatternEntry) : ScanState :=
  match e.patterns.find? (fun p => containsSub normalized p.data) with
  | none => st
  | some pat =>
    if st.found.any (fun f => f.keyword == pat) then st
    else
      let base := psyBase catId
      let dmg := base * mult catId
      { found := st.found ++ [⟨pat, e.reason, [mbti], catId, dmg⟩]
        cbd := addDamage st.cbd catId base
        cmd := addDamage st.cmd catId dmg
        insultCount := st.insultCount
        hasUltraSevere := st.hasUltraSevere }

/-! ## Tone and pressure corrections -/

def exclChar (c : Char) : Bool := c == '！' || c == '!'

def questChar (c : Char) : Bool := c == '？' || c == '?'

/-- Words of the katakana-emphasis regex
`ナンデ|マジデ|フツウ|ホント[ニ二]|イミ[ワハ]カ|ダカラ|ムリ[ダだ]|ウザ|キモ`,
with the two-character classes expanded. -/
def toneKatakanaWords : List String :=
  ["ナンデ", "マジデ", "フツウ", "ホントニ", "ホント二", "イミワカ", "イミハカ",
   "ダカラ", "ムリダ", "ムリだ", "ウザ", "キモ"]

/-- Unanchored alternatives of the imperative-tone regex. -/
def imperativeWords : List String :=
  ["しなさい", "するな", "やめろ", "やめなさい", "黙れ", "出ていけ", "消えろ",
   "どけ", "失せろ", "帰れ", "来るな"]

/-- `[しすき]ろ[。！!]?$` — the normalized text contains no line breaks
(whitespace was stripped), so `$` under the `m` flag is end of string. -/
def endsImperative (l : List Char) : Bool :=
  match l.reverse with
  | [] => false
  | c :: rest =>
    (c == 'ろ' &&
      (match rest with
       | d :: _ => d == 'し' || d == 'す' || d == 'き'
       | [] => false)) ||
    ((c == '。' || c == '！' || c == '!') &&
      (match rest with
       | d :: e :: _ => d == 'ろ' && (e == 'し' || e == 'す' || e == 'き')
       | _ => false))

/-- Alternatives of the negation regex `ない|ません|じゃない|ではない|できない|しない`,
in alternation order. -/
def negAlts : List (List Char) :=
  ["ない", "ません", "じゃない", "ではない", "できない", "しない"].map String.data

/-- Tone correction and its reason strings; `text` is the raw input, the last
three checks run on the normalized text, exactly as in the source. -/
def toneOf (text normalized : List Char) : ℚ × List String :=
  let aggro := hasSeq [exclChar, exclChar] text || hasSeq [exclChar, questChar] text ||
    hasSeq [questChar, exclChar] text
  let p1 : ℚ × List String :=
    if aggro then (15, ["感嘆符・疑問符の連続が強い攻撃性・圧迫感を示しています"])
    else
      let exclamCount := (text.filter exclChar).length
      if 3 ≤ exclamCount then (8, ["感嘆符の多用が心理的圧迫感を生んでいます"])
      else if 1 ≤ exclamCount then (1, [])
      else (0, [])
  let p2 : ℚ × List String :=
    if hasSeq [questChar, questChar, questChar] text then
      (15, ["疑問符の連続が強い詰問・追及のプレッシャーを与えます"])
    else if hasSeq [questChar, questChar] text then
      (8, ["連続する疑問符が詰問・追及のプレッシャーを与えます"])
    else (0, [])
  let p3 : ℚ × List String :=
    if toneKatakanaWords.any (fun w => containsSub normalized w.data) then
      (15, ["カタカナ強調が威圧的・嘲笑的なトーンを生んでいます"])
    else (0, [])
  let p4 : ℚ × List String :=
    if endsImperative normalized || imperativeWords.any (fun w => containsSub normalized w.data) then
      (10, ["命令口調は相手の自律性を脅かし、心理的安全性を破壊します"])
    else (0, [])
  let p5 : ℚ × List String :=
    if 3 ≤ countMatches negAlts normalized then
      (5, ["否定表現の蓄積が無力感・絶望感を誘発します"])
    else (0, [])
  (p1.1 + p2.1 + p3.1 + p4.1 + p5.1, p1.2 ++ p2.2 ++ p3.2 ++ p4.2 ++ p5.2)

/-- Pressure correction and its reason strings.  `Object.keys(categoryMbtiDamage)`
is the key list of the insertion-ordered damage map, i.e. `cmd.length` distinct
categories. -/
def pressureOf (normalized : List Char) (cmd : List (String × ℚ)) : ℚ × List String :=
  let p1 : ℚ × List String :=
    if 200 < normalized.length then
      (2, ["長文は受け手に処理の負担を与え、逃げ場のなさを感じさせます"])
    else (0, [])
  let p2 : ℚ × List String :=
    if normalized.length < 5 ∧ 0 < normalized.length then
      (3, ["極端に短い言葉は突き放しや拒絶のシグナルとして受け取られます"])
    else (0, [])
  let p3 : ℚ × List String :=
    if 3 ≤ cmd.length then
      (5, ["複数の心理的攻撃が重なり、相手の防御機能を突破する危険があります"])
    else (0, [])
  (p1.1 + p2.1 + p3.1, p1.2 ++ p2.2 ++ p3.2)

/-! ## Assembled analysis state and score -/

/-- Everything `analyzeLocal` has computed before the score arithmetic.  None
of it involves the power function. -/
structure Parts where
  normalized : List Char
  st : ScanState
  tone : ℚ
  toneReasons : List String
  pressure : ℚ
  pressureReasons : List String
deriving Repr, DecidableEq

/-- Detection phases plus corrections, parameterized by the multiplier lookup
`mult` (the source's `multipliers[catId] || 1.0`). -/
def partsCore (mult : String → ℚ) (text mbti : String) : Parts :=
  let normalized := normalizeList text.data
  let st1 := DIRECT_INSULTS.foldl (phase1Step normalized mbti) initState
  let st2 := CATEGORY_PATTERNS.foldl
    (fun s ce => ce.2.foldl (phase2Step normalized mbti mult ce.1) s) st1
  let tp := toneOf text.data normalized
  let pp := pressureOf normalized st2.cmd
  ⟨normalized, st2, tp.1, tp.2, pp.1, pp.2⟩

/-- `Object.values(m).reduce((a, b) => a + b, 0)`. -/
def totalOf (m : List (String × ℚ)) : ℚ := m.foldl (fun a p => a + p.2) 0

def clamp100 (n : ℤ) : ℤ := max 0 (min 100 n)

/-- `Math.max(0, Math.min(100, Math.round(100 - deduction)))` where
`deduction = f(total) * 2.0 + toneCorrection + pressureCorrection`: this is
both `baseScore` (applied to `totalBaseDamage`) and `mbtiRawScore` (applied to
`totalMbtiDamage`), lines 497–502.  `f` stands for `x ↦ Math.pow(x, 1.3)`. -/
def baseScoreOf (f : ℚ → ℚ) (total tone press : ℚ) : ℤ :=
  clamp100 (round ((100 : ℚ) - (f total * 2 + tone + press)))

/-- Lines 493–505 of the source: both deductions, both clamped rounded scores,
and the ±10 clamp of the personality-weighted score around the base score. -/
def preScore (f : ℚ → ℚ) (totalBase totalMbti tone press : ℚ) : ℤ :=
  clamp100 (max (baseScoreOf f totalBase tone press - 10)
    (min (baseScoreOf f totalBase tone press + 10) (baseScoreOf f totalMbti tone press)))

/-- Lines 507–513: the ultra-severe cap and the insult-count cap. -/
def applyCaps (s : ℤ) (insultCount : Nat) (ultra : Bool) : ℤ :=
  if ultra then min s 5
  else if 0 < insultCount then
    min s (max 0 (30 - ((insultCount : ℤ) - 1) * 20))
  else s

def computeScore (f : ℚ → ℚ) (P : Parts) : ℤ :=
  applyCaps (preScore f (totalOf P.st.cbd) (totalOf P.st.cmd) P.tone P.pressure)
    P.st.insultCount P.st.hasUltraSevere

/-! ## Score reasons -/

/-- The severity-graded category sentence (lines 531–537). -/
def catReasonLine (mbti : String) (mult : ℚ) (ci : PsyCategory) : String :=
  if 1.8 ≤ mult then
    "【危険】" ++ ci.label ++ ": " ++ mbti ++ "はこの領域に極めて敏感です。" ++
      ci.desc ++ "表現が深い傷を与えます。"
  else if 1.3 ≤ mult then
    "【注意】" ++ ci.label ++ ": " ++ mbti ++ "にとって敏感な領域です。" ++
      ci.desc ++ "表現に注意が必要です。"
  else ci.label ++ ": " ++ ci.desc ++ "表現が含まれています。"

/-- The score-banded summary sentence (lines 541–549). -/
def bandReason (score : ℤ) : List String :=
  if score ≤ 20 then ["相手の心理的防衛線を複数突破しており、深刻な信頼関係の破壊につながる恐れがあります。"]
  else if score ≤ 40 then ["相手のコア・アイデンティティに触れる表現が多く、大幅な書き直しを強く推奨します。"]
  else if score ≤ 60 then ["部分的に相手の価値観と衝突する表現があります。改善案を参考にしてください。"]
  else if score ≤ 80 then ["概ね安全ですが、一部の表現を調整するとより良い関係構築につながります。"]
  else []

/-- `scoreReason` assembly (lines 516–553).  `Array.prototype.sort` is stable,
so the descending sort by damage is a stable merge sort with comparator
`b[1] - a[1] ≤ 0`. -/
def scoreReasonOf (mult : String → ℚ) (mbti : String) (P : Parts) (score : ℤ) :
    List String :=
  if P.st.found.isEmpty ∧ P.tone = 0 ∧ P.pressure = 0 then
    [mbti ++ " の心理的安全性を脅かす表現は検出されませんでした。",
     "相手の価値観を尊重した安全なメッセージです。"]
  else
    let sorted := (P.st.cmd.mergeSort (fun a b => b.2 ≤ a.2)).take 3
    let catReasons := sorted.foldl (fun acc cd =>
      match List.lookup cd.1 PSY_CATEGORIES with
      | some ci => acc ++ [catReasonLine mbti (mult cd.1) ci]
      | none => acc) []
    catReasons ++ bandReason score ++ P.toneReasons ++ P.pressureReasons

/-! ## The analyzer -/

/-- The result of `analyzeLocal` as far as the claims are concerned: the
`improved` rewrite (lines 556–585) is a function of the original text and the
findings only and is outside the scope of the embedded claims. -/
structure AnalyzeResult where
  score : ℤ
  scoreReason : List String
  ngWords : List NgWord
deriving Repr, DecidableEq

def analyzeCore (f : ℚ → ℚ) (mult : String → ℚ) (text mbti : String) :
    AnalyzeResult :=
  let P := partsCore mult text mbti
  let score := computeScore f P
  { score := score
    scoreReason := scoreReasonOf mult mbti P score
    ngWords := P.st.found.map (fun fd => ⟨fd.keyword, fd.reason, fd.mbtiTypes⟩) }

/-- `MBTI_MULTIPLIERS[targetMbti] || {}` followed by `...[catId] || 1.0`
(all table values are nonzero, so JS falsiness coincides with absence). -/
def multOf (mbti : String) : String → ℚ := fun catId =>
  (List.lookup catId ((List.lookup mbti MBTI_MULTIPLIERS).getD [])).getD 1

/-- `analyzeLocal(text, targetMbti)`, with the power function abstracted. -/
def analyzeLocal (f : ℚ → ℚ) (text mbti : String) : AnalyzeResult :=
  analyzeCore f (multOf mbti) text mbti

/-- Spec-side definition: the personality-agnostic analysis — every category
multiplier is 1.0 — labeled with the given code. -/
def analyzeAgnostic (f : ℚ → ℚ) (text mbti : String) : AnalyzeResult :=
  analyzeCore f (fun _ => 1) text mbti

/-- The detection/correction state `analyzeLocal` computes for an input. -/
def analysisParts (text mbti : String) : Parts := partsCore (multOf mbti) text mbti

/-- Concrete representative of `x ↦ Math.pow(x, 1.3)` for closed instance
theorems: it is zero at zero, monotone and nonnegative on nonnegatives, and
every closed theorem below evaluates it only at `0`, where it agrees exactly
with the source (`Math.pow(0, 1.3) = 0`). -/
def refPow : ℚ → ℚ := fun x => x

/-! ## Request validation (the HTTP handler, lines 26–33) -/

/-- The 16 valid four-letter codes accepted by `/^[EI][SN][TF][JP]$/i`. -/
def MBTI_CODES : List String :=
  ["INTJ", "INTP", "ENTJ", "ENTP", "INFJ", "INFP", "ENFJ", "ENFP",
   "ISTJ", "ISFJ", "ESTJ", "ESFJ", "ISTP", "ISFP", "ESTP", "ESFP"]

/-- JS `String.prototype.trim` (the WhiteSpace/LineTerminator set coincides
with `wsVals` here). -/
def jsTrim (s : String) : String :=
  ⟨((s.data.dropWhile wsChar).reverse.dropWhile wsChar).reverse⟩

/-- `/^[EI][SN][TF][JP]$/i.test(m)`. -/
def mbtiRegexOk (m : String) : Bool :=
  match m.data with
  | [a, b, c, d] =>
    (a == 'E' || a == 'I' || a == 'e' || a == 'i') &&
    (b == 'S' || b == 'N' || b == 's' || b == 'n') &&
    (c == 'T' || c == 'F' || c == 't' || c == 'f') &&
    (d == 'J' || d == 'P' || d == 'j' || d == 'p')
  | _ => false

/-- JS `String.prototype.toUpperCase` on the ranges reachable here. -/
def jsToUpper (s : String) : String :=
  ⟨s.data.map (fun c =>
    if decide (0x61 ≤ c.toNat ∧ c.toNat ≤ 0x7A) then Char.ofNat (c.toNat - 0x20)
    else if decide (0xFF41 ≤ c.toNat ∧ c.toNat ≤ 0xFF5A) then Char.ofNat (c.toNat - 0x20)
    else c)⟩

def textErrorMsg : String := "text は必須です"

def mbtiErrorMsg : String := "targetMbti は有効なMBTIタイプ（例: INFP）を指定してください"

/-- The input validation of the HTTP handler (lines 26–33): on success it
yields exactly the `(text.trim(), targetMbti.toUpperCase())` pair the handler
passes to `analyzeLocal`; otherwise the 400 rejection message.  `none` models
an absent/non-string field; `!text` is JS falsiness, i.e. also the empty
string. -/
def validateRequest (text targetMbti : Option String) :
    Except String (String × String) :=
  match text with
  | none => Except.error textErrorMsg
  | some t =>
    if t == "" || (jsTrim t).data.length == 0 then Except.error textErrorMsg
    else
      match targetMbti with
      | none => Except.error mbtiErrorMsg
      | some m =>
        if m == "" || !mbtiRegexOk m then Except.error mbtiErrorMsg
        else Except.ok (jsTrim t, jsToUpper m)

/-- The multiplier-independent shape shared by the scan states of two runs of
the detection phases on the same text: same keywords and categories found, the
same base-damage map, the same weighted-damage keys, the same insult count and
ultra-severe flag. -/
def StRel (s1 s2 : ScanState) : Prop :=
  s1.found.map Finding.keyword = s2.found.map Finding.keyword ∧
  s1.found.map Finding.category = s2.found.map Finding.category ∧
  s1.cbd = s2.cbd ∧
  s1.cmd.map Prod.fst = s2.cmd.map Prod.fst ∧
  s1.insultCount = s2.insultCount ∧
  s1.hasUltraSevere = s2.hasUltraSevere

/-! ## Character-level facts about the normalizer -/

lemma toNat_ofNat_small (n : Nat) (h : n < 0xD800) : (Char.ofNat n).toNat = n := by
  unfold Char.ofNat
  rw [dif_pos (Or.inl h)]
  rfl

lemma foldWide_of_neg (c : Char) (h : inWide c = false) : foldWide c = c := by
  simp [foldWide, h]

lemma foldWide_val (c : Char) (h : inWide c = true) :
    (foldWide c).toNat = c.toNat - 0xFEE0 ∧
    ((0xFF21 ≤ c.toNat ∧ c.toNat ≤ 0xFF3A) ∨ (0xFF41 ≤ c.toNat ∧ c.toNat ≤ 0xFF5A) ∨
     (0xFF10 ≤ c.toNat ∧ c.toNat ≤ 0xFF19)) := by
  have hv : (0xFF21 ≤ c.toNat ∧ c.toNat ≤ 0xFF3A) ∨ (0xFF41 ≤ c.toNat ∧ c.toNat ≤ 0xFF5A) ∨
      (0xFF10 ≤ c.toNat ∧ c.toNat ≤ 0xFF19) := by
    simpa [inWide] using h
  refine ⟨?_, hv⟩
  simp only [foldWide, h, if_true]
  exact toNat_ofNat_small _ (by omega)

lemma foldHankaku_of_neg (c : Char) (h : inHank c = false) : foldHankaku c = c := by
  simp [foldHankaku, h]

lemma inHank_false_of_range (c : Char) (h : c.toNat < 0xFF66 ∨ 0xFF9F < c.toNat) :
    inHank c = false := by
  simp only [inHank, decide_eq_false_iff_not]
  omega

lemma inWide_false_of_range (c : Char)
    (h : ¬ ((0xFF21 ≤ c.toNat ∧ c.toNat ≤ 0xFF3A) ∨ (0xFF41 ≤ c.toNat ∧ c.toNat ≤ 0xFF5A) ∨
      (0xFF10 ≤ c.toNat ∧ c.toNat ≤ 0xFF19))) : inWide c = false := by
  simp only [inWide, decide_eq_false_iff_not]
  exact h

lemma jsToLower_of_neg (c : Char)
    (h1 : ¬ (0x41 ≤ c.toNat ∧ c.toNat ≤ 0x5A))
    (h2 : ¬ (0xFF21 ≤ c.toNat ∧ c.toNat ≤ 0xFF3A)) : jsToLower c = c := by
  simp [jsToLower, h1, h2]

lemma jsToLower_upper (c : Char) (h : 0x41 ≤ c.toNat ∧ c.toNat ≤ 0x5A) :
    (jsToLower c).toNat = c.toNat + 0x20 := by
  simp only [jsToLower, decide_eq_true_eq, h, if_true]
  exact toNat_ofNat_small _ (by omega)

lemma getD_cases {α : Type} (l : List α) (i : Nat) (d : α) :
    l.getD i d ∈ l ∨ l.getD i d = d := by
  by_cases h : i < l.length
  · left
    rw [List.getD_eq_getElem l d h]
    exact List.getElem_mem h
  · right
    unfold List.getD
    rw [List.get?_eq_none.mpr (by omega)]
    rfl

lemma foldHankaku_cases (c : Char) :
    foldHankaku c ∈ zenkakuMap ∨ foldHankaku c = c := by
  unfold foldHankaku
  split
  · split
    · exact getD_cases _ _ _
    · right; rfl
  · right; rfl

lemma zenkaku_fixed : ∀ z ∈ zenkakuMap,
    jsToLower z = z ∧ wsChar z = false ∧ inWide z = false ∧ inHank z = false ∧
    normChar z = z := by
  decide

/-- The four possible shapes of a normalized character: unchanged, a full-width
katakana from the conversion table, an ASCII digit, or an ASCII lower-case
letter. -/
lemma normChar_cases (c : Char) :
    normChar c = c ∨ normChar c ∈ zenkakuMap ∨
    (0x30 ≤ (normChar c).toNat ∧ (normChar c).toNat ≤ 0x39) ∨
    (0x61 ≤ (normChar c).toNat ∧ (normChar c).toNat ≤ 0x7A) := by
  unfold normChar
  by_cases hw : inWide c = true
  · obtain ⟨hval, hrange⟩ := foldWide_val c hw
    have hh : inHank (foldWide c) = false := inHank_false_of_range _ (by omega)
    rw [foldHankaku_of_neg _ hh]
    rcases hrange with h | h | h
    · have : (jsToLower (foldWide c)).toNat = (foldWide c).toNat + 0x20 :=
        jsToLower_upper _ (by omega)
      right; right; right
      omega
    · rw [jsToLower_of_neg _ (by omega) (by omega)]
      right; right; right
      omega
    · rw [jsToLower_of_neg _ (by omega) (by omega)]
      right; right; left
      omega
  · have hw' : inWide c = false := by simpa using hw
    rw [foldWide_of_neg _ hw']
    rcases foldHankaku_cases c with hz | he
    · right; left
      rw [(zenkaku_fixed _ hz).1]
      exact hz
    · rw [he]
      by_cases ha : 0x41 ≤ c.toNat ∧ c.toNat ≤ 0x5A
      · have := jsToLower_upper c ha
        right; right; right
        omega
      · left
        refine jsToLower_of_neg c ha ?_
        simp only [inWide, decide_eq_false_iff_not] at hw'
        omega

lemma normChar_fixed_of_range (x : Char)
    (h : (0x30 ≤ x.toNat ∧ x.toNat ≤ 0x39) ∨ (0x61 ≤ x.toNat ∧ x.toNat ≤ 0x7A)) :
    normChar x = x := by
  unfold normChar
  rw [foldWide_of_neg _ (inWide_false_of_range _ (by omega)),
      foldHankaku_of_neg _ (inHank_false_of_range _ (by omega)),
      jsToLower_of_neg _ (by omega) (by omega)]

lemma normChar_idem (c : Char) : normChar (normChar c) = normChar c := by
  rcases normChar_cases c with h | h | h | h
  · rw [h, h]
  · exact (zenkaku_fixed _ h).2.2.2.2
  · exact normChar_fixed_of_range _ (Or.inl h)
  · exact normChar_fixed_of_range _ (Or.inr h)

lemma wsVals_ranges : ∀ n ∈ wsVals,
    ¬ (0x30 ≤ n ∧ n ≤ 0x39) ∧ ¬ (0x61 ≤ n ∧ n ≤ 0x7A) := by
  decide

lemma wsChar_normChar (c : Char) (h : wsChar c = false) :
    wsChar (normChar c) = false := by
  rcases normChar_cases c with h1 | h1 | h1 | h1
  · rw [h1]; exact h
  · exact (zenkaku_fixed _ h1).2.1
  · simp only [wsChar, decide_eq_false_iff_not]
    intro hm
    exact (wsVals_ranges _ hm).1 h1
  · simp only [wsChar, decide_eq_false_iff_not]
    intro hm
    exact (wsVals_ranges _ hm).2 h1

lemma normalizeList_idem (l : List Char) :
    normalizeList (normalizeList l) = normalizeList l := by
  unfold normalizeList
  have hfix : ((l.filter (fun c => !wsChar c)).map normChar).filter (fun c => !wsChar c) =
      (l.filter (fun c => !wsChar c)).map normChar := by
    rw [List.filter_eq_self]
    intro y hy
    obtain ⟨x, hx, rfl⟩ := List.mem_map.mp hy
    have hxw : wsChar x = false := by
      have := (List.mem_filter.mp hx).2
      simpa using this
    simp [wsChar_normChar x hxw]
  rw [hfix, List.map_map]
  refine List.map_congr_left ?_
  intro x _
  simp only [Function.comp_apply]
  exact normChar_idem x

/-! ## Score arithmetic -/

lemma clamp100_bounds (n : ℤ) : 0 ≤ clamp100 n ∧ clamp100 n ≤ 100 := by
  unfold clamp100
  omega

lemma preScore_nonneg (f : ℚ → ℚ) (tb tm t p : ℚ) : 0 ≤ preScore f tb tm t p :=
  (clamp100_bounds _).1

lemma preScore_le (f : ℚ → ℚ) (tb tm t p : ℚ) : preScore f tb tm t p ≤ 100 :=
  (clamp100_bounds _).2

lemma applyCaps_bounds (s : ℤ) (c : Nat) (u : Bool) (h0 : 0 ≤ s) (h1 : s ≤ 100) :
    0 ≤ applyCaps s c u ∧ applyCaps s c u ≤ 100 := by
  unfold applyCaps
  split_ifs <;> constructor <;> omega

lemma round_mono_rat {a b : ℚ} (h : a ≤ b) : round a ≤ round b := by
  rw [round_eq, round_eq]
  exact Int.floor_le_floor (by linarith)

lemma clamp100_mono {a b : ℤ} (h : a ≤ b) : clamp100 a ≤ clamp100 b := by
  unfold clamp100
  omega

/-- The pre-cap score is antitone in both damage totals and in the combined
tone-plus-pressure correction, for any monotone-on-nonnegatives power
function. -/
lemma preScore_antitone (f : ℚ → ℚ)
    (hf : ∀ a b : ℚ, 0 ≤ a → a ≤ b → f a ≤ f b)
    {tb1 tm1 tb2 tm2 t1 p1 t2 p2 : ℚ}
    (hnb : 0 ≤ tb1) (hnm : 0 ≤ tm1)
    (hb : tb1 ≤ tb2) (hm : tm1 ≤ tm2) (htp : t1 + p1 ≤ t2 + p2) :
    preScore f tb2 tm2 t2 p2 ≤ preScore f tb1 tm1 t1 p1 := by
  have hfb : f tb1 ≤ f tb2 := hf _ _ hnb hb
  have hfm : f tm1 ≤ f tm2 := hf _ _ hnm hm
  have h1 : baseScoreOf f tb2 t2 p2 ≤ baseScoreOf f tb1 t1 p1 :=
    clamp100_mono (round_mono_rat (by linarith))
  have h2 : baseScoreOf f tm2 t2 p2 ≤ baseScoreOf f tm1 t1 p1 :=
    clamp100_mono (round_mono_rat (by linarith))
  unfold preScore
  unfold clamp100
  omega

/-- The capped score is antitone: a lower pre-cap score, at least as many
insults and an unchanged ultra-severe flag never increase the final score. -/
lemma applyCaps_antitone {s1 s2 : ℤ} {c1 c2 : Nat} {u : Bool}
    (hs : s2 ≤ s1) (hc : c1 ≤ c2) :
    applyCaps s2 c2 u ≤ applyCaps s1 c1 u := by
  unfold applyCaps
  cases u <;> split_ifs <;> omega

/-! ## Fold invariants and mult-independence of the scan -/

lemma foldl_invariant {α β : Type _} (P : α → Prop) (step : α → β → α)
    (hstep : ∀ s b, P s → P (step s b)) :
    ∀ (l : List β) (s : α), P s → P (l.foldl step s) := by
  intro l
  induction l with
  | nil => intro s h; exact h
  | cons x xs ih => intro s h; exact ih _ (hstep s x h)

lemma foldl_rel {α β : Type _} (R : α → α → Prop) (f g : α → β → α)
    (hstep : ∀ a b x, R a b → R (f a x) (g b x)) :
    ∀ (l : List β) (a b : α), R a b → R (l.foldl f a) (l.foldl g b) := by
  intro l
  induction l with
  | nil => intro a b h; exact h
  | cons x xs ih => intro a b h; exact ih _ _ (hstep a b x h)

lemma any_map_eq {α β : Type _} (f : α → β) (p : β → Bool) (l : List α) :
    l.any (fun x => p (f x)) = (l.map f).any p := by
  induction l with
  | nil => rfl
  | cons x xs ih => simp only [List.any_cons, List.map_cons, ih]

lemma any_keyword_eq {l1 l2 : List Finding}
    (h : l1.map Finding.keyword = l2.map Finding.keyword) (pat : String) :
    l1.any (fun f => f.keyword == pat) = l2.any (fun f => f.keyword == pat) := by
  have e1 : l1.any (fun f => f.keyword == pat) =
      (l1.map Finding.keyword).any (fun k => k == pat) :=
    any_map_eq Finding.keyword (fun k => k == pat) l1
  have e2 : l2.any (fun f => f.keyword == pat) =
      (l2.map Finding.keyword).any (fun k => k == pat) :=
    any_map_eq Finding.keyword (fun k => k == pat) l2
  rw [e1, e2, h]

lemma addDamage_keys {m1 m2 : List (String × ℚ)}
    (h : m1.map Prod.fst = m2.map Prod.fst) (k : String) (v1 v2 : ℚ) :
    (addDamage m1 k v1).map Prod.fst = (addDamage m2 k v2).map Prod.fst := by
  have hany : m1.any (fun p => p.1 == k) = m2.any (fun p => p.1 == k) := by
    have e1 : m1.any (fun p => p.1 == k) =
        (m1.map Prod.fst).any (fun x => x == k) :=
      any_map_eq Prod.fst (fun x => x == k) m1
    have e2 : m2.any (fun p => p.1 == k) =
        (m2.map Prod.fst).any (fun x => x == k) :=
      any_map_eq Prod.fst (fun x => x == k) m2
    rw [e1, e2, h]
  have hmapfst : ∀ (m : List (String × ℚ)) (v : ℚ),
      (m.map (fun p => if p.1 == k then (p.1, p.2 + v) else p)).map Prod.fst =
        m.map Prod.fst := by
    intro m v
    rw [List.map_map]
    refine List.map_congr_left ?_
    intro p _
    simp only [Function.comp_apply]
    split <;> rfl
  unfold addDamage
  rw [hany]
  by_cases hb : m2.any (fun p => p.1 == k) = true
  · rw [if_pos hb, if_pos hb, hmapfst, hmapfst, h]
  · rw [if_neg hb, if_neg hb, List.map_append, List.map_append, h]
    simp

lemma phase1Step_rel (normalized : List Char) (m1 m2 : String)
    {s1 s2 : ScanState} (h : StRel s1 s2) (g : InsultGroup) :
    StRel (phase1Step normalized m1 s1 g) (phase1Step normalized m2 s2 g) := by
  obtain ⟨hk, hc, hbd, hmd, hcnt, hu⟩ := h
  unfold phase1Step
  cases hm : firstIdxMatch normalized g.patterns with
  | none => exact ⟨hk, hc, hbd, hmd, hcnt, hu⟩
  | some pi =>
    obtain ⟨pat, i⟩ := pi
    dsimp only
    by_cases hq : isQuotedInsult normalized i = true
    · rw [if_pos hq, if_pos hq]
      exact ⟨hk, hc, hbd, hmd, hcnt, hu⟩
    · rw [if_neg hq, if_neg hq, any_keyword_eq hk pat]
      by_cases hd : s2.found.any (fun f => f.keyword == pat) = true
      · rw [if_pos hd, if_pos hd]
        exact ⟨hk, hc, hbd, hmd, hcnt, hu⟩
      · rw [if_neg hd, if_neg hd]
        refine ⟨?_, ?_, ?_, ?_, ?_, ?_⟩ <;> dsimp only
        · simp only [List.map_append, List.map_cons, List.map_nil]
          rw [hk]
        · simp only [List.map_append, List.map_cons, List.map_nil]
          rw [hc]
        · rw [hbd]
        · exact addDamage_keys hmd _ _ _
        · rw [hcnt]
        · rw [hu]

lemma phase2Step_rel (normalized : List Char) (m1 m2 : String)
    (mult1 mult2 : String → ℚ) (catId : String)
    {s1 s2 : ScanState} (h : StRel s1 s2) (e : PatternEntry) :
    StRel (phase2Step normalized m1 mult1 catId s1 e)
      (phase2Step normalized m2 mult2 catId s2 e) := by
  obtain ⟨hk, hc, hbd, hmd, hcnt, hu⟩ := h
  unfold phase2Step
  cases hm : e.patterns.find? (fun p => containsSub normalized p.data) with
  | none => exact ⟨hk, hc, hbd, hmd, hcnt, hu⟩
  | some pat =>
    dsimp only
    rw [any_keyword_eq hk pat]
    by_cases hd : s2.found.any (fun f => f.keyword == pat) = true
    · rw [if_pos hd, if_pos hd]
      exact ⟨hk, hc, hbd, hmd, hcnt, hu⟩
    · rw [if_neg hd, if_neg hd]
      refine ⟨?_, ?_, ?_, ?_, ?_, ?_⟩ <;> dsimp only
      · simp only [List.map_append, List.map_cons, List.map_nil]
        rw [hk]
      · simp only [List.map_append, List.map_cons, List.map_nil]
        rw [hc]
      · rw [hbd]
      · exact addDamage_keys hmd _ _ _
      · rw [hcnt]
      · rw [hu]

/-- The scan states of two runs on the same text differ only in the
multiplier-weighted values and personality labels. -/
lemma partsCore_rel (mult1 mult2 : String → ℚ) (m1 m2 text : String) :
    StRel (partsCore mult1 text m1).st (partsCore mult2 text m2).st := by
  unfold partsCore
  refine foldl_rel StRel _ _ ?_ CATEGORY_PATTERNS _ _
    (foldl_rel StRel _ _ (fun a b x h => phase1Step_rel _ m1 m2 h x)
      DIRECT_INSULTS _ _ ⟨rfl, rfl, rfl, rfl, rfl, rfl⟩)
  intro a b ce h
  exact foldl_rel StRel _ _
    (fun a2 b2 x2 h2 => phase2Step_rel _ m1 m2 mult1 mult2 ce.1 h2 x2) ce.2 a b h

lemma pressureOf_congr (n : List Char) {cmd1 cmd2 : List (String × ℚ)}
    (h : cmd1.length = cmd2.length) : pressureOf n cmd1 = pressureOf n cmd2 := by
  unfold pressureOf
  rw [h]

/-- All components of `Parts` other than the weighted damages and the
personality labels agree across multiplier tables. -/
lemma partsCore_agree (mult1 mult2 : String → ℚ) (m1 m2 text : String) :
    StRel (partsCore mult1 text m1).st (partsCore mult2 text m2).st ∧
    (partsCore mult1 text m1).normalized = (partsCore mult2 text m2).normalized ∧
    (partsCore mult1 text m1).tone = (partsCore mult2 text m2).tone ∧
    (partsCore mult1 text m1).toneReasons = (partsCore mult2 text m2).toneReasons ∧
    (partsCore mult1 text m1).pressure = (partsCore mult2 text m2).pressure ∧
    (partsCore mult1 text m1).pressureReasons = (partsCore mult2 text m2).pressureReasons := by
  have hrel := partsCore_rel mult1 mult2 m1 m2 text
  have hlen : (partsCore mult1 text m1).st.cmd.length =
      (partsCore mult2 text m2).st.cmd.length := by
    have := hrel.2.2.2.1
    calc (partsCore mult1 text m1).st.cmd.length
        = ((partsCore mult1 text m1).st.cmd.map Prod.fst).length := (List.length_map _ _).symm
      _ = ((partsCore mult2 text m2).st.cmd.map Prod.fst).length := by rw [this]
      _ = (partsCore mult2 text m2).st.cmd.length := List.length_map _ _
  have hpress : pressureOf (normalizeList text.data) (partsCore mult1 text m1).st.cmd =
      pressureOf (normalizeList text.data) (partsCore mult2 text m2).st.cmd :=
    pressureOf_congr _ hlen
  exact ⟨hrel, rfl, rfl, rfl, congrArg Prod.fst hpress, congrArg Prod.snd hpress⟩

/-! ## Nonnegativity of accumulated damages -/

lemma lookup_mem {β : Type _} {l : List (String × β)} {k : String} {v : β}
    (h : List.lookup k l = some v) : (k, v) ∈ l := by
  induction l with
  | nil => simp [List.lookup] at h
  | cons p t ih =>
    obtain ⟨pk, pv⟩ := p
    rw [List.lookup_cons] at h
    by_cases hp : k == pk
    · simp only [hp, Option.some.injEq] at h
      subst h
      have hk : k = pk := eq_of_beq hp
      subst hk
      exact List.mem_cons_self _ _
    · simp only [hp] at h
      exact List.mem_cons_of_mem _ (ih h)

lemma psyBase_nonneg (catId : String) : 0 ≤ psyBase catId := by
  unfold psyBase
  cases h : List.lookup catId PSY_CATEGORIES with
  | none => norm_num
  | some v =>
    have hall : ∀ p ∈ PSY_CATEGORIES, 0 ≤ p.2.baseSeverity := by decide
    simpa using hall _ (lookup_mem h)

lemma multOf_nonneg (mbti catId : String) : 0 ≤ multOf mbti catId := by
  unfold multOf
  cases h : List.lookup mbti MBTI_MULTIPLIERS with
  | none => simp [List.lookup]
  | some tbl =>
    simp only [Option.getD_some]
    have houter : ∀ p ∈ MBTI_MULTIPLIERS, ∀ q ∈ p.2, 0 ≤ q.2 := by decide
    cases h2 : List.lookup catId tbl with
    | none => norm_num
    | some v => simpa using houter _ (lookup_mem h) _ (lookup_mem h2)

/-- Every damage value ever inserted is nonnegative. -/
def DamagesNonneg (st : ScanState) : Prop :=
  (∀ p ∈ st.cbd, 0 ≤ p.2) ∧ (∀ p ∈ st.cmd, 0 ≤ p.2)

lemma addDamage_nonneg {m : List (String × ℚ)} {v : ℚ} (hm : ∀ p ∈ m, 0 ≤ p.2)
    (hv : 0 ≤ v) (k : String) : ∀ p ∈ addDamage m k v, 0 ≤ p.2 := by
  unfold addDamage
  split
  · intro p hp
    obtain ⟨q, hq, rfl⟩ := List.mem_map.mp hp
    by_cases hqk : q.1 == k
    · simp only [hqk, if_true]
      exact add_nonneg (hm q hq) hv
    · simp only [hqk, Bool.false_eq_true, if_false]
      exact hm q hq
  · intro p hp
    rcases List.mem_append.mp hp with hp | hp
    · exact hm p hp
    · simp only [List.mem_singleton] at hp
      subst hp
      exact hv

lemma phase1Step_nonneg (normalized : List Char) (mbti : String) (st : ScanState)
    (g : InsultGroup) (h : DamagesNonneg st) :
    DamagesNonneg (phase1Step normalized mbti st g) := by
  unfold phase1Step
  cases firstIdxMatch normalized g.patterns with
  | none => exact h
  | some pi =>
    obtain ⟨pat, i⟩ := pi
    dsimp only
    split_ifs
    · exact h
    · exact h
    · exact ⟨addDamage_nonneg h.1 (psyBase_nonneg _) _,
        addDamage_nonneg h.2 (psyBase_nonneg _) _⟩

lemma phase2Step_nonneg (normalized : List Char) (mbti : String) (catId : String)
    (st : ScanState) (e : PatternEntry) (h : DamagesNonneg st) :
    DamagesNonneg (phase2Step normalized mbti (multOf mbti) catId st e) := by
  unfold phase2Step
  cases e.patterns.find? (fun p => containsSub normalized p.data) with
  | none => exact h
  | some pat =>
    dsimp only
    split_ifs
    · exact h
    · exact ⟨addDamage_nonneg h.1 (psyBase_nonneg _) _,
        addDamage_nonneg h.2 (mul_nonneg (psyBase_nonneg _) (multOf_nonneg _ _)) _⟩

lemma analysisParts_nonneg (text mbti : String) :
    DamagesNonneg (analysisParts text mbti).st := by
  unfold analysisParts partsCore
  refine foldl_invariant DamagesNonneg _ ?_ CATEGORY_PATTERNS _
    (foldl_invariant DamagesNonneg _
      (fun s g h => phase1Step_nonneg _ _ s g h) DIRECT_INSULTS _
      ⟨by simp [initState], by simp [initState]⟩)
  intro st ce h
  exact foldl_invariant DamagesNonneg _
    (fun s e h2 => phase2Step_nonneg _ _ ce.1 s e h2) ce.2 _ h

lemma totalOf_nonneg {m : List (String × ℚ)} (h : ∀ p ∈ m, 0 ≤ p.2) :
    0 ≤ totalOf m := by
  unfold totalOf
  suffices hgen : ∀ (acc : ℚ), 0 ≤ acc → 0 ≤ m.foldl (fun a p => a + p.2) acc by
    exact hgen 0 le_rfl
  induction m with
  | nil => intro acc hacc; exact hacc
  | cons p t ih =>
    intro acc hacc
    exact ih (fun q hq => h q (List.mem_cons_of_mem _ hq)) _
      (add_nonneg hacc (h p (List.mem_cons_self _ _)))

/-! ## Distinctness of recorded keywords -/

lemma nodup_push {l : List Finding} {fd : Finding}
    (h : (l.map Finding.keyword).Nodup)
    (hnew : l.any (fun f => f.keyword == fd.keyword) = false) :
    ((l ++ [fd]).map Finding.keyword).Nodup := by
  rw [List.map_append, List.map_cons, List.map_nil]
  rw [List.nodup_append]
  refine ⟨h, List.nodup_singleton _, ?_⟩
  intro k hk
  simp only [List.mem_singleton]
  intro hkeq
  subst hkeq
  obtain ⟨f, hf, hfk⟩ := List.mem_map.mp hk
  have := List.any_eq_false.mp hnew f hf
  simp only [beq_iff_eq] at this
  exact this hfk

lemma phase1Step_nodup (normalized : List Char) (mbti : String) (st : ScanState)
    (g : InsultGroup) (h : (st.found.map Finding.keyword).Nodup) :
    ((phase1Step normalized mbti st g).found.map Finding.keyword).Nodup := by
  unfold phase1Step
  cases firstIdxMatch normalized g.patterns with
  | none => exact h
  | some pi =>
    obtain ⟨pat, i⟩ := pi
    dsimp only
    split_ifs with h1 h2
    · exact h
    · exact h
    · exact nodup_push h (by simpa using h2)

lemma phase2Step_nodup (normalized : List Char) (mbti : String)
    (mult : String → ℚ) (catId : String) (st : ScanState) (e : PatternEntry)
    (h : (st.found.map Finding.keyword).Nodup) :
    ((phase2Step normalized mbti mult catId st e).found.map Finding.keyword).Nodup := by
  unfold phase2Step
  cases e.patterns.find? (fun p => containsSub normalized p.data) with
  | none => exact h
  | some pat =>
    dsimp only
    split_ifs with h1
    · exact h
    · exact nodup_push h (by simpa using h1)

lemma partsCore_nodup (mult : String → ℚ) (text mbti : String) :
    ((partsCore mult text mbti).st.found.map Finding.keyword).Nodup := by
  unfold partsCore
  refine foldl_invariant (fun st : ScanState => (st.found.map Finding.keyword).Nodup)
    _ ?_ CATEGORY_PATTERNS _
    (foldl_invariant _ _ (fun s g h => phase1Step_nodup _ mbti s g h)
      DIRECT_INSULTS _ (by simp [initState]))
  intro st ce h
  exact foldl_invariant _ _
    (fun s e h2 => phase2Step_nodup _ mbti mult ce.1 s e h2) ce.2 _ h

/-! ## Claim theorems -/

/-- C1: for every non-empty text string and every one of the 16 valid
personality codes, the `score` field of the result of `analyzeLocal` is an
integer (it is of type `ℤ` by construction: a rounded, clamped value) lying in
the closed interval `[0, 100]` — for every power function `f`, hence in
particular for `Math.pow(·, 1.3)`. -/
theorem analyzeLocal_score_in_range (f : ℚ → ℚ) (text mbti : String)
    (htext : text ≠ "") (hmbti : mbti ∈ MBTI_CODES) :
    0 ≤ (analyzeLocal f text mbti).score ∧ (analyzeLocal f text mbti).score ≤ 100 :=
  applyCaps_bounds _ _ _ (preScore_nonneg f (totalOf (analysisParts text mbti).st.cbd)
      (totalOf (analysisParts text mbti).st.cmd) (analysisParts text mbti).tone
      (analysisParts text mbti).pressure)
    (preScore_le f _ _ _ _)

/-- Witness for C1 at a concrete input. -/
theorem analyzeLocal_score_in_range_witness :
    ("こんにちは" ≠ "" ∧ "INFP" ∈ MBTI_CODES) ∧
    (0 ≤ (analyzeLocal refPow "こんにちは" "INFP").score ∧
      (analyzeLocal refPow "こんにちは" "INFP").score ≤ 100) :=
  ⟨⟨by decide, by decide⟩,
    analyzeLocal_score_in_range refPow "こんにちは" "INFP" (by decide) (by decide)⟩

/-- C2 counterexample: `analyzeLocal` does not fail on empty text — it is a
total function that, on the empty string, returns a normal well-formed result
(perfect score, no findings) instead of an `InvalidInput` rejection.
Validation lives in the HTTP handler, not in `analyzeLocal`.  Both damage
totals are `0` here, so the power function is used only at `0`, where
`refPow 0 = 0 = Math.pow(0, 1.3)`. -/
theorem analyzeLocal_accepts_empty_text :
    (analyzeLocal refPow "" "INFP").score = 100 ∧
    (analyzeLocal refPow "" "INFP").ngWords = [] := by
  constructor
  · decide
  · decide

lemma validate_text_cond (t : String) :
    (t == "" || (jsTrim t).data.length == 0) = true ↔ jsTrim t = "" := by
  constructor
  · intro h
    rcases Bool.or_eq_true _ _ |>.mp h with h1 | h1
    · have ht : t = "" := by simpa using h1
      subst ht
      rfl
    · have hl : (jsTrim t).data.length = 0 := by simpa using h1
      have hd : (jsTrim t).data = [] := List.length_eq_zero.mp hl
      exact congrArg String.mk hd
  · intro h
    have : (jsTrim t).data.length == 0 := by
      rw [h]
      rfl
    rw [Bool.or_eq_true]
    right
    exact this

/-- C2 amended: the input validation happens in the HTTP handler (lines
26–33), which rejects with the 400 error messages whenever `text` is missing,
empty or whitespace-only, or `targetMbti` is missing or fails the
case-insensitive four-letter-code regex; only on valid input does it forward
`(text.trim(), targetMbti.toUpperCase())` to `analyzeLocal`. -/
theorem handler_validates_input (t m : String) (mb : Option String) :
    validateRequest none mb = Except.error textErrorMsg ∧
    (jsTrim t = "" → validateRequest (some t) mb = Except.error textErrorMsg) ∧
    (mbtiRegexOk m = false →
      ∃ e, validateRequest (some t) (some m) = Except.error e) ∧
    (jsTrim t ≠ "" → mbtiRegexOk m = true →
      validateRequest (some t) (some m) = Except.ok (jsTrim t, jsToUpper m)) := by
  refine ⟨rfl, ?_, ?_, ?_⟩
  · intro h
    unfold validateRequest
    dsimp only
    rw [if_pos ((validate_text_cond t).mpr h)]
  · intro h
    by_cases ht : jsTrim t = ""
    · refine ⟨textErrorMsg, ?_⟩
      unfold validateRequest
      dsimp only
      rw [if_pos ((validate_text_cond t).mpr ht)]
    · refine ⟨mbtiErrorMsg, ?_⟩
      have h1 : ¬ ((t == "" || (jsTrim t).data.length == 0) = true) :=
        fun hc => ht ((validate_text_cond t).mp hc)
      have h2 : (m == "" || !mbtiRegexOk m) = true := by
        rw [Bool.or_eq_true]
        right
        rw [h]
        rfl
      unfold validateRequest
      dsimp only
      rw [if_neg h1, if_pos h2]
  · intro ht hm
    have h1 : ¬ ((t == "" || (jsTrim t).data.length == 0) = true) :=
      fun hc => ht ((validate_text_cond t).mp hc)
    have h2 : ¬ ((m == "" || !mbtiRegexOk m) = true) := by
      rw [Bool.or_eq_true]
      rintro (hme | hmf)
      · have : m = "" := by simpa using hme
        subst this
        exact absurd hm (by decide)
      · rw [hm] at hmf
        simp at hmf
    unfold validateRequest
    dsimp only
    rw [if_neg h1, if_neg h2]

/-- Witness for C2's amended theorem at concrete inputs. -/
theorem handler_validates_input_witness :
    (jsTrim " " = "" ∧ validateRequest (some " ") (some "INFP") = Except.error textErrorMsg) ∧
    (mbtiRegexOk "ABCD" = false ∧
      ∃ e, validateRequest (some "あ") (some "ABCD") = Except.error e) ∧
    (jsTrim "あ" ≠ "" ∧ mbtiRegexOk "infp" = true ∧
      validateRequest (some "あ") (some "infp") = Except.ok (jsTrim "あ", jsToUpper "infp")) :=
  ⟨⟨by decide, (handler_validates_input " " "INFP" (some "INFP")).2.1 (by decide)⟩,
   ⟨by decide, (handler_validates_input "あ" "ABCD" (some "ABCD")).2.2.1 (by decide)⟩,
   ⟨by decide, by decide,
     (handler_validates_input "あ" "infp" (some "infp")).2.2.2 (by decide) (by decide)⟩⟩

/-- C3 counterexample: the text `死ねって言われた` contains the ultra-severe
phrase `死ね` in its normalized form, yet scores `100 > 5`, because the
quote-context filter suppresses the match (`って言われた` occurs after it).
Both damage totals are `0` here, so the power function is used only at `0`,
where `refPow 0 = 0 = Math.pow(0, 1.3)`. -/
theorem ultra_severe_quoted_counterexample :
    containsSub (normalizeText "死ねって言われた").data (String.data "死ね") = true ∧
    5 < (analyzeLocal refPow "死ねって言われた" "INFP").score := by
  constructor
  · decide
  · decide

/-- C3 amended: whenever the insult phase actually records an ultra-severe
match — i.e. the normalized text contains an ultra-severe phrase whose
group's first occurrence is not quote-suppressed — the final score is at
most 5, for every personality code and every power function. -/
theorem ultra_severe_caps_score (f : ℚ → ℚ) (t mbti : String)
    (h : (analysisParts t mbti).st.hasUltraSevere = true) :
    (analyzeLocal f t mbti).score ≤ 5 := by
  have heq : (analyzeLocal f t mbti).score =
      applyCaps (preScore f (totalOf (analysisParts t mbti).st.cbd)
        (totalOf (analysisParts t mbti).st.cmd) (analysisParts t mbti).tone
        (analysisParts t mbti).pressure)
        (analysisParts t mbti).st.insultCount
        (analysisParts t mbti).st.hasUltraSevere := rfl
  rw [heq, h]
  unfold applyCaps
  rw [if_pos rfl]
  exact min_le_right _ _

/-- Witness for C3's amended theorem at a concrete input. -/
theorem ultra_severe_caps_score_witness :
    (analysisParts "死ね" "INFP").st.hasUltraSevere = true ∧
    (analyzeLocal refPow "死ね" "INFP").score ≤ 5 :=
  ⟨by decide, ultra_severe_caps_score refPow "死ね" "INFP" (by decide)⟩

/-- C4: with no ultra-severe match, one or more detected direct insults cap
the score at exactly `max(0, 30 - (insultCount - 1) * 20)` (the final score is
the minimum of the pre-cap score and this cap): one insult caps at 30, two at
10, three or more force the score to 0. -/
theorem insult_count_caps_score (f : ℚ → ℚ) (t mbti : String)
    (hu : (analysisParts t mbti).st.hasUltraSevere = false)
    (hc : 1 ≤ (analysisParts t mbti).st.insultCount) :
    (analyzeLocal f t mbti).score =
      min (preScore f (totalOf (analysisParts t mbti).st.cbd)
          (totalOf (analysisParts t mbti).st.cmd) (analysisParts t mbti).tone
          (analysisParts t mbti).pressure)
        (max 0 (30 - (((analysisParts t mbti).st.insultCount : ℤ) - 1) * 20)) ∧
    (analyzeLocal f t mbti).score ≤
      max 0 (30 - (((analysisParts t mbti).st.insultCount : ℤ) - 1) * 20) ∧
    ((analysisParts t mbti).st.insultCount = 1 → (analyzeLocal f t mbti).score ≤ 30) ∧
    ((analysisParts t mbti).st.insultCount = 2 → (analyzeLocal f t mbti).score ≤ 10) ∧
    (3 ≤ (analysisParts t mbti).st.insultCount → (analyzeLocal f t mbti).score = 0) := by
  have hs0 : 0 ≤ preScore f (totalOf (analysisParts t mbti).st.cbd)
      (totalOf (analysisParts t mbti).st.cmd) (analysisParts t mbti).tone
      (analysisParts t mbti).pressure := preScore_nonneg _ _ _ _ _
  have heq : (analyzeLocal f t mbti).score =
      applyCaps (preScore f (totalOf (analysisParts t mbti).st.cbd)
        (totalOf (analysisParts t mbti).st.cmd) (analysisParts t mbti).tone
        (analysisParts t mbti).pressure)
        (analysisParts t mbti).st.insultCount
        (analysisParts t mbti).st.hasUltraSevere := rfl
  have hcap : (analyzeLocal f t mbti).score =
      min (preScore f (totalOf (analysisParts t mbti).st.cbd)
          (totalOf (analysisParts t mbti).st.cmd) (analysisParts t mbti).tone
          (analysisParts t mbti).pressure)
        (max 0 (30 - (((analysisParts t mbti).st.insultCount : ℤ) - 1) * 20)) := by
    rw [heq, hu]
    unfold applyCaps
    rw [if_neg (by simp), if_pos (by omega)]
  refine ⟨hcap, ?_, ?_, ?_, ?_⟩
  · rw [hcap]
    omega
  · intro hk
    rw [hcap, hk]
    omega
  · intro hk
    rw [hcap, hk]
    omega
  · intro hk
    rw [hcap]
    omega

/-- Witness for C4 at a concrete input with exactly one insult. -/
theorem insult_count_caps_score_witness :
    ((analysisParts "ばか" "INFP").st.hasUltraSevere = false ∧
      1 ≤ (analysisParts "ばか" "INFP").st.insultCount) ∧
    ((analysisParts "ばか" "INFP").st.insultCount = 1 →
      (analyzeLocal refPow "ばか" "INFP").score ≤ 30) :=
  ⟨⟨by decide, by decide⟩,
    (insult_count_caps_score refPow "ばか" "INFP" (by decide) (by decide)).2.2.1⟩

lemma score_eq (f : ℚ → ℚ) (text mbti : String) :
    (analyzeLocal f text mbti).score =
      applyCaps (preScore f (totalOf (analysisParts text mbti).st.cbd)
        (totalOf (analysisParts text mbti).st.cmd) (analysisParts text mbti).tone
        (analysisParts text mbti).pressure)
        (analysisParts text mbti).st.insultCount
        (analysisParts text mbti).st.hasUltraSevere := rfl

/-- The arithmetic core of the divergence bound: with identical base damage,
corrections, insult count and ultra flag, two capped scores differing only in
the weighted damage total are within 20 points of each other. -/
lemma divergence_core (f : ℚ → ℚ) (tb M1 M2 t p : ℚ) (c : Nat) (u : Bool) :
    |applyCaps (preScore f tb M1 t p) c u - applyCaps (preScore f tb M2 t p) c u| ≤ 20 := by
  rw [abs_le]
  unfold applyCaps preScore clamp100
  constructor <;> (split_ifs <;> omega)

/-- C5: for a fixed text, the scores for any two valid personality codes
differ by at most 20 — the base score is personality-independent, the
weighted score is clamped to ±10 of it, and the caps are
personality-independent. -/
theorem score_divergence_bounded (f : ℚ → ℚ) (text m1 m2 : String)
    (hv1 : m1 ∈ MBTI_CODES) (hv2 : m2 ∈ MBTI_CODES) :
    |(analyzeLocal f text m1).score - (analyzeLocal f text m2).score| ≤ 20 := by
  obtain ⟨hrel, hnorm, htone, _, hpress, _⟩ :=
    partsCore_agree (multOf m1) (multOf m2) m1 m2 text
  have hbd : (analysisParts text m1).st.cbd = (analysisParts text m2).st.cbd :=
    hrel.2.2.1
  have hcnt : (analysisParts text m1).st.insultCount =
      (analysisParts text m2).st.insultCount := hrel.2.2.2.2.1
  have hu : (analysisParts text m1).st.hasUltraSevere =
      (analysisParts text m2).st.hasUltraSevere := hrel.2.2.2.2.2
  have htone2 : (analysisParts text m1).tone = (analysisParts text m2).tone := htone
  have hpress2 : (analysisParts text m1).pressure = (analysisParts text m2).pressure :=
    hpress
  rw [score_eq, score_eq, hbd, hcnt, hu, htone2, hpress2]
  exact divergence_core f _ _ _ _ _ _ _

/-- Witness for C5 at a concrete input. -/
theorem score_divergence_bounded_witness :
    ("INFP" ∈ MBTI_CODES ∧ "ISTP" ∈ MBTI_CODES) ∧
    |(analyzeLocal refPow "現実を見ろ" "INFP").score -
      (analyzeLocal refPow "現実を見ろ" "ISTP").score| ≤ 20 :=
  ⟨⟨by decide, by decide⟩,
    score_divergence_bounded refPow "現実を見ろ" "INFP" "ISTP" (by decide) (by decide)⟩

/-- C6 counterexample: appending the direct-insult phrase `ばか` to the text
`ばかって言われたからしろ` RAISES the score from 90 to 100: the appended
insult's first occurrence (index 0) is quote-suppressed by the `って言われた`
already present, and the append destroys the end-anchored imperative-tone
match `しろ$` (+10).  Both texts accumulate zero dictionary damage, so the
power function is used only at `0`, where `refPow 0 = 0 = Math.pow(0, 1.3)`. -/
theorem append_insult_raises_score :
    (∃ g ∈ DIRECT_INSULTS, "ばか" ∈ g.patterns) ∧
    (analyzeLocal refPow "ばかって言われたからしろ" "INFP").score <
      (analyzeLocal refPow ("ばかって言われたからしろ" ++ "ばか") "INFP").score := by
  constructor
  · decide
  · decide

/-- C6 amended: the score is antitone in the analysis quantities — if one
text's scan yields at least the damage totals, combined tone and pressure
correction and insult count of another's, with the same ultra-severe flag,
its score is no greater.  Appending an insult phrase lowers (or preserves)
the score exactly when it does not decrease these quantities; the
counterexample shows the unrestricted claim fails when the append disables a
tone heuristic and the appended insult is quote-masked. -/
theorem score_antitone_in_parts (f : ℚ → ℚ)
    (hf : ∀ a b : ℚ, 0 ≤ a → a ≤ b → f a ≤ f b) (t1 t2 mbti : String)
    (hb : totalOf (analysisParts t1 mbti).st.cbd ≤ totalOf (analysisParts t2 mbti).st.cbd)
    (hm : totalOf (analysisParts t1 mbti).st.cmd ≤ totalOf (analysisParts t2 mbti).st.cmd)
    (htp : (analysisParts t1 mbti).tone + (analysisParts t1 mbti).pressure ≤
      (analysisParts t2 mbti).tone + (analysisParts t2 mbti).pressure)
    (hc : (analysisParts t1 mbti).st.insultCount ≤ (analysisParts t2 mbti).st.insultCount)
    (hu : (analysisParts t1 mbti).st.hasUltraSevere = (analysisParts t2 mbti).st.hasUltraSevere) :
    (analyzeLocal f t2 mbti).score ≤ (analyzeLocal f t1 mbti).score := by
  have hnn := analysisParts_nonneg t1 mbti
  have hnb : 0 ≤ totalOf (analysisParts t1 mbti).st.cbd := totalOf_nonneg hnn.1
  have hnm : 0 ≤ totalOf (analysisParts t1 mbti).st.cmd := totalOf_nonneg hnn.2
  rw [score_eq, score_eq, ← hu]
  exact applyCaps_antitone (preScore_antitone f hf hnb hnm hb hm htp) hc

/-- Witness for C6's amended theorem at concrete inputs (`ばか` versus
`ばかあほ`). -/
theorem score_antitone_in_parts_witness :
    (totalOf (analysisParts "ばか" "INFP").st.cbd ≤
        totalOf (analysisParts "ばかあほ" "INFP").st.cbd ∧
      totalOf (analysisParts "ばか" "INFP").st.cmd ≤
        totalOf (analysisParts "ばかあほ" "INFP").st.cmd ∧
      (analysisParts "ばか" "INFP").tone + (analysisParts "ばか" "INFP").pressure ≤
        (analysisParts "ばかあほ" "INFP").tone + (analysisParts "ばかあほ" "INFP").pressure ∧
      (analysisParts "ばか" "INFP").st.insultCount ≤
        (analysisParts "ばかあほ" "INFP").st.insultCount ∧
      (analysisParts "ばか" "INFP").st.hasUltraSevere =
        (analysisParts "ばかあほ" "INFP").st.hasUltraSevere) ∧
    (analyzeLocal refPow "ばかあほ" "INFP").score ≤
      (analyzeLocal refPow "ばか" "INFP").score :=
  ⟨⟨by decide, by decide, by decide, by decide, by decide⟩,
    score_antitone_in_parts refPow (fun _ _ _ h => h) "ばか" "ばかあほ" "INFP"
      (by decide) (by decide) (by decide) (by decide) (by decide)⟩

lemma countP_map_eq {α β : Type _} (f : α → β) (p : β → Bool) (l : List α) :
    l.countP (fun x => p (f x)) = (l.map f).countP p := by
  induction l with
  | nil => rfl
  | cons x xs ih => simp only [List.countP_cons, List.map_cons, ih]

lemma filter_category_length {l1 l2 : List Finding}
    (h : l1.map Finding.category = l2.map Finding.category) (d : String) :
    (l1.filter (fun fd => fd.category == d)).length =
      (l2.filter (fun fd => fd.category == d)).length := by
  rw [← List.countP_eq_length_filter, ← List.countP_eq_length_filter]
  have e1 : l1.countP (fun fd => fd.category == d) =
      (l1.map Finding.category).countP (fun c => c == d) :=
    countP_map_eq Finding.category (fun c => c == d) l1
  have e2 : l2.countP (fun fd => fd.category == d) =
      (l2.map Finding.category).countP (fun c => c == d) :=
    countP_map_eq Finding.category (fun c => c == d) l2
  rw [e1, e2, h]

/-- C7: for every personality code, `バカって言われた` (reporting being
called an insult) yields zero direct-insult findings while `バカ` alone
yields exactly one; and in general a group whose first matching phrase has a
quotation-context suffix anywhere after the match start contributes
nothing. -/
theorem quote_suppression_behavior (mbti : String) :
    ((analysisParts "バカって言われた" mbti).st.found.filter
      (fun fd => fd.category == "direct_insult")).length = 0 ∧
    ((analysisParts "バカ" mbti).st.found.filter
      (fun fd => fd.category == "direct_insult")).length = 1 ∧
    (∀ (normalized : List Char) (m2 : String) (st : ScanState) (g : InsultGroup)
      (p : String) (i : Nat),
      firstIdxMatch normalized g.patterns = some (p, i) →
      isQuotedInsult normalized i = true →
      phase1Step normalized m2 st g = st) := by
  refine ⟨?_, ?_, ?_⟩
  · have h := (partsCore_rel (multOf mbti) (multOf "INFP") mbti "INFP" "バカって言われた").2.1
    exact (filter_category_length h _).trans (by decide)
  · have h := (partsCore_rel (multOf mbti) (multOf "INFP") mbti "INFP" "バカ").2.1
    exact (filter_category_length h _).trans (by decide)
  · intro normalized m2 st g p i hmatch hq
    unfold phase1Step
    rw [hmatch]
    dsimp only
    rw [if_pos hq]

/-- Witness for C7 at a concrete input and a concrete suppressed group. -/
theorem quote_suppression_behavior_witness :
    ((analysisParts "バカって言われた" "INFP").st.found.filter
      (fun fd => fd.category == "direct_insult")).length = 0 ∧
    phase1Step (normalizeText "バカって言われた").data "INFP" initState
      ⟨["ばか", "バカ", "馬鹿"], "直接的な侮辱は相手の尊厳を根本から傷つけます", false⟩ =
      initState :=
  ⟨(quote_suppression_behavior "INFP").1,
    (quote_suppression_behavior "INFP").2.2 (normalizeText "バカって言われた").data
      "INFP" initState _ "バカ" 0 (by decide) (by decide)⟩

/-- C8: `normalizeText` is idempotent — normalizing an already-normalized
string changes nothing: the output contains no whitespace and no characters
that the width folds or the lower-casing would still rewrite. -/
theorem normalizeText_idempotent (s : String) :
    normalizeText (normalizeText s) = normalizeText s :=
  congrArg String.mk (normalizeList_idem s.data)

/-- C9: within one analysis the findings list contains at most one entry per
distinct matched phrase: every recorded keyword is distinct (phase 1 and
phase 2 both check the shared `found` list before pushing, so a phrase
recorded in either phase is never added again). -/
theorem ngWords_keywords_nodup (f : ℚ → ℚ) (text mbti : String) :
    ((analyzeLocal f text mbti).ngWords.map NgWord.keyword).Nodup := by
  have h := partsCore_nodup (multOf mbti) text mbti
  have e : (analyzeLocal f text mbti).ngWords.map NgWord.keyword =
      (analysisParts text mbti).st.found.map Finding.keyword := by
    show ((analysisParts text mbti).st.found.map
      (fun fd => (⟨fd.keyword, fd.reason, fd.mbtiTypes⟩ : NgWord))).map NgWord.keyword =
        (analysisParts text mbti).st.found.map Finding.keyword
    rw [List.map_map]
    rfl
  rw [e]
  exact h

lemma multOf_unknown (mbti : String) (h : mbti ∉ MBTI_CODES) :
    multOf mbti = fun _ => (1 : ℚ) := by
  funext catId
  unfold multOf
  cases hl : List.lookup mbti MBTI_MULTIPLIERS with
  | none => simp [List.lookup]
  | some tbl =>
    exfalso
    have hkeys : ∀ p ∈ MBTI_MULTIPLIERS, p.1 ∈ MBTI_CODES := by decide
    exact h (hkeys _ (lookup_mem hl))

/-- C10: `analyzeLocal` is total over all string inputs (it is a Lean
function, returning a well-formed result for every text and code), and an
unrecognized `targetMbti` yields the empty multiplier table, so every
category's sensitivity multiplier defaults to 1.0 and the result equals the
personality-agnostic analysis labeled with the given code. -/
theorem unknown_mbti_is_agnostic (f : ℚ → ℚ) (text mbti : String)
    (h : mbti ∉ MBTI_CODES) :
    multOf mbti = (fun _ => (1 : ℚ)) ∧
    analyzeLocal f text mbti = analyzeAgnostic f text mbti := by
  have hm := multOf_unknown mbti h
  refine ⟨hm, ?_⟩
  show analyzeCore f (multOf mbti) text mbti = analyzeCore f (fun _ => 1) text mbti
  rw [hm]

/-- Witness for C10 at a concrete malformed code. -/
theorem unknown_mbti_is_agnostic_witness :
    "ABCD" ∉ MBTI_CODES ∧
    analyzeLocal refPow "ばか" "ABCD" = analyzeAgnostic refPow "ばか" "ABCD" :=
  ⟨by decide, (unknown_mbti_is_agnostic refPow "ばか" "ABCD" (by decide)).2⟩

end MbtiBot
